import Mathlib

/-
  Verification of the block-reader module (rpc/block_reader.go).

  The embedding below is a shallow model of `BlockReader` and its retry
  loop.  The reader's interaction with the network is represented by
  per-candidate "scripts" (`ConnectScript`): each candidate datanode comes
  with the outcome of dialing it, of writing the request, of parsing the
  response header, the checksum/chunk metadata the response carries, how
  many bytes its stream can serve during the alignment discard, and the
  sequence of results its checksummed stream will return from `Read`
  calls.  The checksummed stream itself (`blockReadStream`) and the
  failover selector (`datanodeFailover`) live in files of the repository
  that are not part of the excerpt; they are modelled from the spec where
  noted.

  To reason about the socket-lifecycle invariants, the model carries the
  set of sockets this reader has opened and not yet closed
  (`openSockets`), together with a counter handing out fresh socket ids.
  Dialing pushes a fresh id, `conn.Close()` erases an id.  These two
  fields are instrumentation of the environment; every push/erase matches
  exactly one `net.DialTimeout` / `conn.Close()` in the Go source.

  Machine integers: offsets and lengths are modelled as `Nat`.  All
  offsets reaching the reader are non-negative, and the only subtraction
  sites (`amountToDiscard := br.offset - chunkOffset` on int64 and
  `needed := numBytes - uint64(br.offset)` on uint64) are guarded so that
  truncated `Nat` subtraction agrees with the source's behaviour at every
  state reachable from `Read`.
-/

namespace rpc

/-- Errors of the model.  `eof` is `io.EOF`, `errClosedPipe` is
`io.ErrClosedPipe`, `unexpectedEOF` is `io.ErrUnexpectedEOF`,
`noDatanodes` is the generic `errors.New("No available datanodes for
block.")`, `unsupportedChecksum t` the `fmt.Errorf("Unsupported checksum
type: %d", t)`, and `ioErr code` stands for any other distinct I/O or
network error (the code only compares errors against `io.EOF`). -/
inductive Err where
  | eof
  | errClosedPipe
  | unexpectedEOF
  | noDatanodes
  | unsupportedChecksum (t : Nat)
  | ioErr (code : Nat)
deriving DecidableEq, Repr

/-- One outcome of a `stream.Read(b)` call: the byte count together with
the returned error (`none` is Go's `nil`). -/
abbrev ReadOutcome := Nat × Option Err

/-- The fields of `hdfs.ExtendedBlockProto` the reader consumes:
`GetNumBytes()` plus an opaque identity for the rest. -/
structure ExtendedBlock where
  numBytes : Nat
  ident : Nat
deriving DecidableEq, Repr

/-- The fields of `hdfs.LocatedBlockProto` the reader consumes: `GetB()`
and `GetBlockToken()` (the token is opaque to the reader). -/
structure LocatedBlock where
  b : ExtendedBlock
  blockToken : Nat
deriving DecidableEq, Repr

/-- The scripted environment of one connection attempt against one
candidate datanode: the results the network and the datanode will
produce.  `checksumType` follows the protocol enum (`CHECKSUM_CRC32 = 1`,
`CHECKSUM_CRC32C = 2`; the enum values are taken from the protocol schema
referenced by the source, which is outside the excerpt).
`discardAvailable` is the number of bytes the new stream can serve before
end-of-stream during the alignment discard, and `streamReads` the
subsequent `Read` outcomes of the stream once active. -/
structure ConnectScript where
  dialErr : Option Err
  writeErr : Option Err
  respErr : Option Err
  checksumType : Nat
  bytesPerChecksum : Nat
  chunkOffset : Nat
  discardAvailable : Nat
  streamReads : List ReadOutcome
deriving DecidableEq, Repr

/-- Modelled from the spec: the per-session failover selector
(`datanodeFailover`, a file of this repository outside the excerpt).
`remaining` is the ranked candidate list (ranking already applied; `next`
pops the head), `lastError` the most recently recorded failure.  The
global failure-count cache that `recordFailure` also increments is not
modelled: no claim under verification depends on the counts, only on the
last recorded error. -/
structure datanodeFailover where
  remaining : List ConnectScript
  lastError : Option Err
deriving DecidableEq, Repr

/-- Modelled from the spec: `numRemaining()` of the failover selector. -/
def numRemaining (d : datanodeFailover) : Nat :=
  d.remaining.length

/-- Modelled from the spec: `recordFailure(err)` of the failover
selector records `err` as the session's last error (the global cache
increment is omitted, see `datanodeFailover`). -/
def recordFailure (d : datanodeFailover) (e : Err) : datanodeFailover :=
  { d with lastError := some e }

/-- The `BlockReader` state.  `block`, `datanodes`, `stream`, `conn`,
`offset`, `closed` mirror the Go struct; the active stream is represented
by the list of outcomes its remaining `Read` calls will produce.
`openSockets` / `sockCtr` instrument the environment: the ids of sockets
opened by this reader that are still open, and the next fresh id. -/
structure BlockReader where
  block : LocatedBlock
  datanodes : datanodeFailover
  stream : Option (List ReadOutcome)
  conn : Option Nat
  offset : Nat
  closed : Bool
  openSockets : List Nat
  sockCtr : Nat
deriving DecidableEq, Repr

/-- `BlockReader.Close`: sets `closed`, and closes the held socket if
any (`br.conn` itself is left as is, matching the source). -/
def Close (s : BlockReader) : BlockReader :=
  { s with
    closed := true,
    openSockets :=
      match s.conn with
      | some c => s.openSockets.erase c
      | none => s.openSockets }

/-- One attempt to read from the active stream, lines 77-89 of the
source: `n, err := br.stream.Read(b); br.offset += int64(n)`, then the
failure handling.  `outs` is the content of `s.stream`.  An exhausted
script stands for a stream that is at end-of-stream, so its `Read`
returns `(0, io.EOF)`.  `Sum.inl` is a `return` to the caller, `Sum.inr`
is the `continue` of the retry loop. -/
def streamStep (s : BlockReader) (outs : List ReadOutcome) :
    ((Nat × Option Err) × BlockReader) ⊕ BlockReader :=
  match outs with
  | [] => Sum.inl ((0, some Err.eof), s)
  | (n, e) :: rest =>
    let s1 := { s with stream := some rest, offset := s.offset + n }
    match e with
    | none => Sum.inl ((n, none), s1)
    | some err =>
      if err = Err.eof then
        Sum.inl ((n, some Err.eof), s1)
      else
        let s2 := { s1 with stream := none,
                            datanodes := recordFailure s1.datanodes err }
        if 0 < n then Sum.inl ((n, none), s2) else Sum.inr s2

/-- `BlockReader.connectNext`, lines 112-165 of the source: pop the next
candidate, dial it, send the request, parse the response, check the
checksum algorithm, build the stream, and discard up to the session
offset.  Returns Go's error result, the updated state, and the number of
bytes `io.CopyN` consumed from the new stream during the discard.

Note which failure paths close the freshly dialed socket: only the
discard path does (`conn.Close()` before `return err`); the request
write, the response parse and the unsupported-checksum returns leave the
socket open, exactly as in the source.  On success the stream and socket
are installed without touching any previously held socket. -/
def connectNext (s : BlockReader) : Option Err × BlockReader × Nat :=
  match s.datanodes.remaining with
  | [] =>
    -- `next()` on an exhausted selector; unreachable from `Read`, whose
    -- loop only connects while `numRemaining() > 0`.
    (some Err.noDatanodes, s, 0)
  | c :: rest =>
    let s0 := { s with datanodes := { s.datanodes with remaining := rest } }
    match c.dialErr with
    | some e => (some e, s0, 0)
    | none =>
      let sock := s0.sockCtr
      let s1 := { s0 with sockCtr := sock + 1,
                          openSockets := sock :: s0.openSockets }
      match c.writeErr with
      | some e => (some e, s1, 0)
      | none =>
        match c.respErr with
        | some e => (some e, s1, 0)
        | none =>
          if c.checksumType = 1 ∨ c.checksumType = 2 then
            let amountToDiscard := s1.offset - c.chunkOffset
            if 0 < amountToDiscard then
              if c.discardAvailable < amountToDiscard then
                (some Err.unexpectedEOF,
                 { s1 with openSockets := s1.openSockets.erase sock },
                 c.discardAvailable)
              else
                (none,
                 { s1 with stream := some c.streamReads, conn := some sock },
                 amountToDiscard)
            else
              (none,
               { s1 with stream := some c.streamReads, conn := some sock },
               0)
          else
            (some (Err.unsupportedChecksum c.checksumType), s1, 0)

/-- The main retry loop of `BlockReader.Read`, lines 64-97 of the
source, with an explicit fuel bound on the number of iterations (`none`
means the fuel ran out before the loop finished; every theorem below
quantifies over all sufficient fuels). -/
def readLoop : Nat → BlockReader → Option ((Nat × Option Err) × BlockReader)
  | 0, _ => none
  | fuel + 1, s =>
    if s.stream.isSome = true ∨ 0 < numRemaining s.datanodes then
      match s.stream with
      | some outs =>
        match streamStep s outs with
        | Sum.inl r => some r
        | Sum.inr s2 => readLoop fuel s2
      | none =>
        match connectNext s with
        | (some e, s1, _) =>
          readLoop fuel { s1 with datanodes := recordFailure s1.datanodes e }
        | (none, s1, _) =>
          match s1.stream with
          | some outs =>
            match streamStep s1 outs with
            | Sum.inl r => some r
            | Sum.inr s2 => readLoop fuel s2
          | none =>
            -- Unreachable: a successful `connectNext` always installs a
            -- stream.
            none
    else
      some ((0, some (s.datanodes.lastError.getD Err.noDatanodes)), s)

/-- `BlockReader.Read`, lines 55-98 of the source: the closed guard, the
block-end guard with auto-close, then the retry loop. -/
def Read (fuel : Nat) (s : BlockReader) :
    Option ((Nat × Option Err) × BlockReader) :=
  if s.closed = true then
    some ((0, some Err.errClosedPipe), s)
  else if s.block.b.numBytes ≤ s.offset then
    some ((0, some Err.eof), Close s)
  else
    readLoop fuel s

/-! Wire-protocol layer.  Byte streams are `List Nat` with entries below
256; the response parser consumes a stream and returns the assembled
message bytes together with the unread remainder of the stream (the
bytes the following data stream would see). -/

/-- `binary.MaxVarintLen32`. -/
def maxVarintLen32 : Nat := 5

/-- Worker for `binary.Uvarint` over a byte list: accumulator `x`, byte
index `i`.  Mirrors the source of `encoding/binary`: stops at the first
byte below `0x80`, reports overflow as a negative count, and reports an
exhausted buffer as count 0.  Accumulation is 64-bit (`% 2 ^ 64`); on
byte inputs the groups occupy disjoint bit ranges, so the source's
bitwise-or is addition. -/
def uvarintAux : List Nat → Nat → Nat → Nat × Int
  | [], _, _ => (0, 0)
  | b :: rest, i, x =>
    if i = 10 then
      (0, -(Int.ofNat (i + 1)))
    else if b < 128 then
      if i = 9 ∧ 1 < b then
        (0, -(Int.ofNat (i + 1)))
      else
        ((x + (b <<< (7 * i)) % (2 ^ 64)) % (2 ^ 64), Int.ofNat (i + 1))
    else
      uvarintAux rest (i + 1) ((x + ((b % 128) <<< (7 * i)) % (2 ^ 64)) % (2 ^ 64))

/-- `binary.Uvarint`: the decoded value and the number of bytes consumed
(0 when the buffer ends mid-varint, negative on overflow). -/
def uvarint (buf : List Nat) : Nat × Int :=
  uvarintAux buf 0 0

/-- `io.ReadFull r buf` over a scripted byte stream: returns the `n`
bytes read and the remainder of the stream, `io.EOF` when the stream is
empty and `n > 0`, and `io.ErrUnexpectedEOF` when the stream ends after
fewer than `n` bytes. -/
def readFull (input : List Nat) (n : Nat) : Except Err (List Nat × List Nat) :=
  if n ≤ input.length then
    Except.ok (input.take n, input.drop n)
  else if input.length = 0 then
    Except.error Err.eof
  else
    Except.error Err.unexpectedEOF

/-- `BlockReader.readBlockReadResponse`, lines 198-225 of the source, at
the byte level: read exactly `maxVarintLen32` scratch bytes, decode the
varint, reuse the scratch bytes past the varint as the head of the
message (`copy(respBytes, varintBytes[varintLength:])`), and read the
rest of the message from the stream.  The protobuf decode the source
applies to the assembled bytes is the out-of-scope codec; the model
returns the assembled message bytes and the unread remainder. -/
def readBlockReadResponse (input : List Nat) :
    Except Err (List Nat × List Nat) :=
  match readFull input maxVarintLen32 with
  | Except.error e => Except.error e
  | Except.ok (varintBytes, rest) =>
    let p := uvarint varintBytes
    if p.2 < 1 then
      Except.error Err.unexpectedEOF
    else
      let fromScratch := (varintBytes.drop p.2.toNat).take p.1
      match readFull rest (p.1 - fromScratch.length) with
      | Except.error e => Except.error e
      | Except.ok (tail, rest2) => Except.ok (fromScratch ++ tail, rest2)

/-- Modelled from the spec: the data-transfer protocol version constant
(not part of the excerpt; a fixed 1-byte constant, 28 in the protocol). -/
def dataTransferVersion : Nat := 28

/-- Modelled from the spec: the read-block op code constant (0x51). -/
def readBlockOp : Nat := 0x51

/-- Modelled from the spec: the fixed client identifier constant (a
string in the implementation, opaque to the claims; represented as an
opaque token). -/
def ClientName : Nat := 0

/-- The fields of `hdfs.OpReadBlockProto` the reader fills, with the
nested headers flattened: `Header.BaseHeader.Block`,
`Header.BaseHeader.Token`, `Header.ClientName`, `Offset`, `Len`. -/
structure OpReadBlock where
  headerBlock : ExtendedBlock
  headerToken : Nat
  clientName : Nat
  offset : Nat
  len : Nat
deriving DecidableEq, Repr

/-- `newBlockReadOp`, lines 227-239 of the source. -/
def newBlockReadOp (block : LocatedBlock) (offset len : Nat) : OpReadBlock :=
  { headerBlock := block.b
    headerToken := block.blockToken
    clientName := ClientName
    offset := offset
    len := len }

/-- Worker for `binary.PutUvarint` with a recursion bound (10 levels
cover every 64-bit value). -/
def uvarintEncodeAux : Nat → Nat → List Nat
  | 0, x => [x]
  | fuel + 1, x =>
    if x < 128 then [x] else (x % 128 + 128) :: uvarintEncodeAux fuel (x / 128)

/-- `binary.PutUvarint`: the varint encoding of `x`. -/
def uvarintEncode (x : Nat) : List Nat :=
  uvarintEncodeAux 10 x

/-- Modelled from the spec: `makeDelimitedMsg` (a helper of the rpc
package outside the excerpt) serializes a message and places its varint
length directly before the serialized bytes.  The serialization codec is
the out-of-scope black box, passed in as `ser`. -/
def makeDelimitedMsg (ser : OpReadBlock → List Nat) (op : OpReadBlock) :
    List Nat :=
  uvarintEncode (ser op).length ++ ser op

/-- `BlockReader.writeBlockReadRequest`, lines 175-192 of the source:
the bytes written to the connection (the model is the byte sequence; the
write error of the socket is the `writeErr` oracle of the loop model). -/
def writeBlockReadRequest (ser : OpReadBlock → List Nat) (s : BlockReader) :
    List Nat :=
  let header := [0x00, dataTransferVersion, readBlockOp]
  let needed := s.block.b.numBytes - s.offset
  let op := newBlockReadOp s.block s.offset needed
  header ++ makeDelimitedMsg ser op

/-! Step lemmas for the retry loop. -/

/-- When the reader is neither closed nor past the block end, `Read`
enters the retry loop. -/
theorem Read_open (fuel : Nat) (s : BlockReader)
    (hc : s.closed = false) (ho : s.offset < s.block.b.numBytes) :
    Read fuel s = readLoop fuel s := by
  simp [Read, hc, Nat.not_le.mpr ho]

/-- With an active stream the loop iteration is a `streamStep`. -/
theorem readLoop_stream (fuel : Nat) (s : BlockReader) (outs : List ReadOutcome)
    (hs : s.stream = some outs) :
    readLoop (fuel + 1) s =
      match streamStep s outs with
      | Sum.inl r => some r
      | Sum.inr s2 => readLoop fuel s2 := by
  simp [readLoop, hs]

/-- With no active stream and a failed connection attempt, the loop
records the failure and continues. -/
theorem readLoop_connect_fail (fuel : Nat) (s : BlockReader)
    (c : ConnectScript) (rest : List ConnectScript) (e : Err)
    (s1 : BlockReader) (k : Nat)
    (hs : s.stream = none) (hr : s.datanodes.remaining = c :: rest)
    (hc : connectNext s = (some e, s1, k)) :
    readLoop (fuel + 1) s =
      readLoop fuel { s1 with datanodes := recordFailure s1.datanodes e } := by
  have hrem : 0 < numRemaining s.datanodes := by
    simp [numRemaining, hr]
  simp [readLoop, hs, hrem, hc]

/-- With no active stream and no remaining candidate, the loop exits
with the last recorded error (or the generic no-datanodes error). -/
theorem readLoop_exit (fuel : Nat) (s : BlockReader)
    (hs : s.stream = none) (hr : s.datanodes.remaining = []) :
    readLoop (fuel + 1) s =
      some ((0, some (s.datanodes.lastError.getD Err.noDatanodes)), s) := by
  simp [readLoop, hs, numRemaining, hr]

/-! Evaluation lemmas for `connectNext`, one per exit path. -/

/-- Dial failure: the candidate is consumed, nothing else changes. -/
theorem connectNext_dial_fail (s : BlockReader) (c : ConnectScript)
    (rest : List ConnectScript) (e : Err)
    (hr : s.datanodes.remaining = c :: rest) (hd : c.dialErr = some e) :
    connectNext s =
      (some e,
       { s with datanodes := { s.datanodes with remaining := rest } },
       0) := by
  simp [connectNext, hr, hd]

/-- Request-write failure: the candidate is consumed and a socket was
dialed; the socket stays open. -/
theorem connectNext_write_fail (s : BlockReader) (c : ConnectScript)
    (rest : List ConnectScript) (e : Err)
    (hr : s.datanodes.remaining = c :: rest) (hd : c.dialErr = none)
    (hw : c.writeErr = some e) :
    connectNext s =
      (some e,
       { s with datanodes := { s.datanodes with remaining := rest },
                sockCtr := s.sockCtr + 1,
                openSockets := s.sockCtr :: s.openSockets },
       0) := by
  simp [connectNext, hr, hd, hw]

/-- Response-parse failure: as for a write failure, the dialed socket
stays open. -/
theorem connectNext_resp_fail (s : BlockReader) (c : ConnectScript)
    (rest : List ConnectScript) (e : Err)
    (hr : s.datanodes.remaining = c :: rest) (hd : c.dialErr = none)
    (hw : c.writeErr = none) (hp : c.respErr = some e) :
    connectNext s =
      (some e,
       { s with datanodes := { s.datanodes with remaining := rest },
                sockCtr := s.sockCtr + 1,
                openSockets := s.sockCtr :: s.openSockets },
       0) := by
  simp [connectNext, hr, hd, hw, hp]

/-- Unsupported checksum algorithm: the attempt fails with the
dedicated error; the dialed socket stays open. -/
theorem connectNext_unsupported (s : BlockReader) (c : ConnectScript)
    (rest : List ConnectScript)
    (hr : s.datanodes.remaining = c :: rest) (hd : c.dialErr = none)
    (hw : c.writeErr = none) (hp : c.respErr = none)
    (hck : ¬(c.checksumType = 1 ∨ c.checksumType = 2)) :
    connectNext s =
      (some (Err.unsupportedChecksum c.checksumType),
       { s with datanodes := { s.datanodes with remaining := rest },
                sockCtr := s.sockCtr + 1,
                openSockets := s.sockCtr :: s.openSockets },
       0) := by
  simp [connectNext, hr, hd, hw, hp, if_neg hck]

/-- End-of-stream during the alignment discard: the error becomes
`io.ErrUnexpectedEOF`, the dialed socket is closed again (the open-set
is back to what it was), and no stream is installed. -/
theorem connectNext_discard_eof (s : BlockReader) (c : ConnectScript)
    (rest : List ConnectScript)
    (hr : s.datanodes.remaining = c :: rest) (hd : c.dialErr = none)
    (hw : c.writeErr = none) (hp : c.respErr = none)
    (hck : c.checksumType = 1 ∨ c.checksumType = 2)
    (hshort : c.discardAvailable < s.offset - c.chunkOffset) :
    connectNext s =
      (some Err.unexpectedEOF,
       { s with datanodes := { s.datanodes with remaining := rest },
                sockCtr := s.sockCtr + 1 },
       c.discardAvailable) := by
  have hpos : 0 < s.offset - c.chunkOffset :=
    Nat.lt_of_le_of_lt (Nat.zero_le _) hshort
  simp [connectNext, hr, hd, hw, hp, if_pos hck, hpos, hshort,
    List.erase_cons_head]

/-- Successful attempt: the candidate is consumed, a fresh socket is
pushed onto the open set without closing anything, the scripted stream
is installed, and the discard consumed `offset - chunkOffset` bytes. -/
theorem connectNext_success (s : BlockReader) (c : ConnectScript)
    (rest : List ConnectScript)
    (hr : s.datanodes.remaining = c :: rest) (hd : c.dialErr = none)
    (hw : c.writeErr = none) (hp : c.respErr = none)
    (hck : c.checksumType = 1 ∨ c.checksumType = 2)
    (hav : s.offset - c.chunkOffset ≤ c.discardAvailable) :
    connectNext s =
      (none,
       { s with datanodes := { s.datanodes with remaining := rest },
                sockCtr := s.sockCtr + 1,
                openSockets := s.sockCtr :: s.openSockets,
                stream := some c.streamReads,
                conn := some s.sockCtr },
       s.offset - c.chunkOffset) := by
  by_cases hpos : 0 < s.offset - c.chunkOffset
  · have hnl : ¬ c.discardAvailable < s.offset - c.chunkOffset :=
      Nat.not_lt.mpr hav
    simp [connectNext, hr, hd, hw, hp, if_pos hck, hpos, hnl]
  · have h0 : s.offset - c.chunkOffset = 0 := Nat.eq_zero_of_not_pos hpos
    simp [connectNext, hr, hd, hw, hp, if_pos hck, hpos, h0]

/-! Claim C1. -/

/-- C1: when the active stream's `Read` returns `n` bytes together with
an error other than end-of-stream, `Read` adds `n` to the session
offset, drops the active stream and records the failure; with `n > 0` it
returns `(n, nil)` — a partial result with no error — and with `n = 0`
it does not return but continues the failover loop. -/
theorem read_midread_failure_short_read (fuel n : Nat) (e : Err)
    (rest : List ReadOutcome) (s : BlockReader)
    (hcl : s.closed = false) (ho : s.offset < s.block.b.numBytes)
    (hs : s.stream = some ((n, some e) :: rest)) (he : e ≠ Err.eof) :
    (0 < n →
      Read (fuel + 1) s =
        some ((n, none),
          { s with offset := s.offset + n, stream := none,
                   datanodes := recordFailure s.datanodes e }))
    ∧ (n = 0 →
      Read (fuel + 1) s =
        readLoop fuel
          { s with stream := none,
                   datanodes := recordFailure s.datanodes e }) := by
  constructor
  · intro hn
    rw [Read_open _ _ hcl ho, readLoop_stream _ _ _ hs]
    simp [streamStep, he, hn]
  · intro hn
    subst hn
    rw [Read_open _ _ hcl ho, readLoop_stream _ _ _ hs]
    simp [streamStep, he]

/-- Concrete instances for C1: a stream failing after 3 bytes yields a
partial read `(3, nil)`, and a stream failing after 0 bytes continues
the loop. -/
theorem read_midread_failure_short_read_witness :
    (Read 1
      { block := { b := { numBytes := 10, ident := 0 }, blockToken := 0 },
        datanodes := { remaining := [], lastError := none },
        stream := some [(3, some (Err.ioErr 7))],
        conn := some 0, offset := 2, closed := false,
        openSockets := [0], sockCtr := 1 } =
      some ((3, none),
        { block := { b := { numBytes := 10, ident := 0 }, blockToken := 0 },
          datanodes := { remaining := [], lastError := some (Err.ioErr 7) },
          stream := none,
          conn := some 0, offset := 5, closed := false,
          openSockets := [0], sockCtr := 1 }))
    ∧ (Read 1
      { block := { b := { numBytes := 10, ident := 0 }, blockToken := 0 },
        datanodes := { remaining := [], lastError := none },
        stream := some [(0, some (Err.ioErr 7))],
        conn := some 0, offset := 2, closed := false,
        openSockets := [0], sockCtr := 1 } =
      readLoop 0
        { block := { b := { numBytes := 10, ident := 0 }, blockToken := 0 },
          datanodes := { remaining := [], lastError := some (Err.ioErr 7) },
          stream := none,
          conn := some 0, offset := 2, closed := false,
          openSockets := [0], sockCtr := 1 }) := by
  constructor
  · exact (read_midread_failure_short_read 0 3 (Err.ioErr 7) [] _
      rfl (by decide) rfl (by decide)).1 (by decide)
  · exact (read_midread_failure_short_read 0 0 (Err.ioErr 7) [] _
      rfl (by decide) rfl (by decide)).2 rfl

/-! Claim C2. -/

/-- C2: a `Read` on a closed reader returns `(0, io.ErrClosedPipe)` with
the state unchanged (no network activity); a `Read` at or past the block
length returns `(0, io.EOF)`, closes the reader, and every subsequent
`Read` returns `(0, io.ErrClosedPipe)`. -/
theorem read_closed_and_block_end (fuel : Nat) (s : BlockReader) :
    (s.closed = true →
      Read fuel s = some ((0, some Err.errClosedPipe), s))
    ∧ (s.closed = false → s.block.b.numBytes ≤ s.offset →
      Read fuel s = some ((0, some Err.eof), Close s)
      ∧ (Close s).closed = true
      ∧ ∀ fuel2 : Nat,
          Read fuel2 (Close s) =
            some ((0, some Err.errClosedPipe), Close s)) := by
  refine ⟨fun hc => ?_, fun hc ho => ⟨?_, rfl, fun fuel2 => ?_⟩⟩
  · simp [Read, hc]
  · simp [Read, hc, ho]
  · simp [Read, Close]

/-- Concrete instances for C2: a closed reader, and a reader whose
offset equals the 10-byte block length. -/
theorem read_closed_and_block_end_witness :
    (Read 5
      { block := { b := { numBytes := 10, ident := 0 }, blockToken := 0 },
        datanodes := { remaining := [], lastError := none },
        stream := none, conn := none, offset := 0, closed := true,
        openSockets := [], sockCtr := 0 } =
      some ((0, some Err.errClosedPipe),
        { block := { b := { numBytes := 10, ident := 0 }, blockToken := 0 },
          datanodes := { remaining := [], lastError := none },
          stream := none, conn := none, offset := 0, closed := true,
          openSockets := [], sockCtr := 0 }))
    ∧ (Read 5
      { block := { b := { numBytes := 10, ident := 0 }, blockToken := 0 },
        datanodes := { remaining := [], lastError := none },
        stream := none, conn := some 4, offset := 10, closed := false,
        openSockets := [4], sockCtr := 5 } =
      some ((0, some Err.eof),
        Close
          { block := { b := { numBytes := 10, ident := 0 }, blockToken := 0 },
            datanodes := { remaining := [], lastError := none },
            stream := none, conn := some 4, offset := 10, closed := false,
            openSockets := [4], sockCtr := 5 })) := by
  constructor
  · exact (read_closed_and_block_end 5 _).1 rfl
  · exact ((read_closed_and_block_end 5 _).2 rfl (by decide)).1

/-! Claim C8. -/

/-- C8: when the retry loop is entered with no active stream and no
remaining candidate, `Read` returns zero bytes with the most recently
recorded failure, or the generic no-datanodes error when no failure was
ever recorded. -/
theorem read_exhausted_returns_last_error (fuel : Nat) (s : BlockReader)
    (hcl : s.closed = false) (ho : s.offset < s.block.b.numBytes)
    (hs : s.stream = none) (hr : s.datanodes.remaining = []) :
    (∀ e : Err, s.datanodes.lastError = some e →
      Read (fuel + 1) s = some ((0, some e), s))
    ∧ (s.datanodes.lastError = none →
      Read (fuel + 1) s = some ((0, some Err.noDatanodes), s)) := by
  constructor
  · intro e hl
    rw [Read_open _ _ hcl ho, readLoop_exit _ _ hs hr, hl]
    rfl
  · intro hl
    rw [Read_open _ _ hcl ho, readLoop_exit _ _ hs hr, hl]
    rfl

/-- Concrete instances for C8: an exhausted session with a recorded
failure surfaces that failure; one with no recorded failure surfaces the
generic error. -/
theorem read_exhausted_returns_last_error_witness :
    (Read 3
      { block := { b := { numBytes := 10, ident := 0 }, blockToken := 0 },
        datanodes := { remaining := [], lastError := some (Err.ioErr 9) },
        stream := none, conn := none, offset := 1, closed := false,
        openSockets := [], sockCtr := 0 } =
      some ((0, some (Err.ioErr 9)),
        { block := { b := { numBytes := 10, ident := 0 }, blockToken := 0 },
          datanodes := { remaining := [], lastError := some (Err.ioErr 9) },
          stream := none, conn := none, offset := 1, closed := false,
          openSockets := [], sockCtr := 0 }))
    ∧ (Read 3
      { block := { b := { numBytes := 10, ident := 0 }, blockToken := 0 },
        datanodes := { remaining := [], lastError := none },
        stream := none, conn := none, offset := 1, closed := false,
        openSockets := [], sockCtr := 0 } =
      some ((0, some Err.noDatanodes),
        { block := { b := { numBytes := 10, ident := 0 }, blockToken := 0 },
          datanodes := { remaining := [], lastError := none },
          stream := none, conn := none, offset := 1, closed := false,
          openSockets := [], sockCtr := 0 })) := by
  constructor
  · exact (read_exhausted_returns_last_error 2 _ rfl (by decide) rfl rfl).1
      (Err.ioErr 9) rfl
  · exact (read_exhausted_returns_last_error 2 _ rfl (by decide) rfl rfl).2 rfl

/-! Concrete scenario material for the counterexamples. -/

/-- A 10-byte block with opaque identity and token. -/
def cexBlock : LocatedBlock :=
  { b := { numBytes := 10, ident := 0 }, blockToken := 0 }

/-- A candidate whose dial, request, response and checksum checks all
succeed, reading from chunk offset 0, with scripted stream outcomes. -/
def goodScript (outs : List ReadOutcome) : ConnectScript :=
  { dialErr := none, writeErr := none, respErr := none, checksumType := 1,
    bytesPerChecksum := 512, chunkOffset := 0, discardAvailable := 0,
    streamReads := outs }

/-- A fresh reader over `cexBlock` with the given candidate list. -/
def freshReader (cands : List ConnectScript) : BlockReader :=
  { block := cexBlock,
    datanodes := { remaining := cands, lastError := none },
    stream := none, conn := none, offset := 0, closed := false,
    openSockets := [], sockCtr := 0 }

/-! Claim C3. -/

/-- C3 counterexample: first candidate connects but its stream fails at
once (0 bytes, connection error); the loop fails over and installs the
second candidate's connection without closing the first socket.  After
the `Read`, socket 0 is still open although the current connection is
socket 1 — so a socket opened by the reader other than the current one
is left open, refuting the claim. -/
theorem socket_left_open_counterexample :
    Read 10 (freshReader
        [goodScript [(0, some (Err.ioErr 7))], goodScript [(5, none)]]) =
      some ((5, none),
        { block := cexBlock,
          datanodes := { remaining := [], lastError := some (Err.ioErr 7) },
          stream := some [], conn := some 1, offset := 5, closed := false,
          openSockets := [1, 0], sockCtr := 2 })
    ∧ (1 : Nat) ≠ 0 := by
  decide

/-- C3 amended: at most one stream is active at a time, but the old
socket is not closed on replacement: a successful `connectNext` pushes
the fresh socket onto the open set and redirects `conn` to it while the
previously held socket stays in the open set untouched, and a mid-read
failure only drops the stream, leaving `conn` and the open set
unchanged.  Sockets are closed only by `Close` and by the
discard-end-of-stream path of `connectNext`. -/
theorem connect_replaces_without_closing (s : BlockReader)
    (c : ConnectScript) (rest : List ConnectScript)
    (hr : s.datanodes.remaining = c :: rest) (hd : c.dialErr = none)
    (hw : c.writeErr = none) (hp : c.respErr = none)
    (hck : c.checksumType = 1 ∨ c.checksumType = 2)
    (hav : s.offset - c.chunkOffset ≤ c.discardAvailable) :
    connectNext s =
      (none,
       { s with datanodes := { s.datanodes with remaining := rest },
                sockCtr := s.sockCtr + 1,
                openSockets := s.sockCtr :: s.openSockets,
                stream := some c.streamReads,
                conn := some s.sockCtr },
       s.offset - c.chunkOffset)
    ∧ ∀ (s2 : BlockReader) (outs : List ReadOutcome),
        streamStep s outs = Sum.inr s2 →
          s2.conn = s.conn ∧ s2.openSockets = s.openSockets := by
  refine ⟨connectNext_success s c rest hr hd hw hp hck hav, ?_⟩
  intro s2 outs hstep
  match outs with
  | [] => simp [streamStep] at hstep
  | (n, none) :: tl => simp [streamStep] at hstep
  | (n, some err) :: tl =>
    by_cases heof : err = Err.eof
    · simp [streamStep, heof] at hstep
    · by_cases hn : 0 < n
      · simp [streamStep, heof, hn] at hstep
      · simp [streamStep, heof, hn] at hstep
        subst hstep
        exact ⟨rfl, rfl⟩

/-- Concrete instance for the amended C3: connecting with a socket
already held leaves the old socket in the open set. -/
theorem connect_replaces_without_closing_witness :
    connectNext
      { block := cexBlock,
        datanodes := { remaining := [goodScript [(5, none)]],
                       lastError := some (Err.ioErr 7) },
        stream := none, conn := some 0, offset := 0, closed := false,
        openSockets := [0], sockCtr := 1 } =
      (none,
       { block := cexBlock,
         datanodes := { remaining := [], lastError := some (Err.ioErr 7) },
         stream := some [(5, none)], conn := some 1, offset := 0,
         closed := false, openSockets := [1, 0], sockCtr := 2 },
       0)
    ∧ streamStep
        { block := cexBlock,
          datanodes := { remaining := [], lastError := none },
          stream := some [(0, some (Err.ioErr 7))], conn := some 0,
          offset := 0, closed := false, openSockets := [0], sockCtr := 1 }
        [(0, some (Err.ioErr 7))] =
      Sum.inr
        { block := cexBlock,
          datanodes := { remaining := [], lastError := some (Err.ioErr 7) },
          stream := none, conn := some 0,
          offset := 0, closed := false, openSockets := [0], sockCtr := 1 } := by
  constructor
  · exact (connect_replaces_without_closing _ (goodScript [(5, none)]) []
      rfl rfl rfl rfl (Or.inl rfl) (by decide)).1
  · decide

/-! Claim C4. -/

/-- C4 counterexample: the first candidate's response carries checksum
type 0 (neither CRC-32 variant); the attempt fails with the
unsupported-checksum error, the failure is recorded, and the session
nevertheless fails over to the second candidate, from which the same
`Read` call returns 5 bytes.  The error is therefore retryable — the
read session does fail over after it, refuting the claim. -/
theorem unsupported_checksum_failover_counterexample :
    Read 10 (freshReader
        [{ goodScript [] with checksumType := 0 }, goodScript [(5, none)]]) =
      some ((5, none),
        { block := cexBlock,
          datanodes := { remaining := [],
                         lastError := some (Err.unsupportedChecksum 0) },
          stream := some [], conn := some 1, offset := 5, closed := false,
          openSockets := [1, 0], sockCtr := 2 }) := by
  decide

/-- C4 amended: an unsupported checksum algorithm type makes the
connection attempt fail with the dedicated parse error, and the failure
is recorded and retried like any other attempt failure: the failover
loop continues with the next candidate. -/
theorem unsupported_checksum_is_retried (fuel : Nat) (s : BlockReader)
    (c : ConnectScript) (rest : List ConnectScript)
    (hs : s.stream = none)
    (hr : s.datanodes.remaining = c :: rest) (hd : c.dialErr = none)
    (hw : c.writeErr = none) (hp : c.respErr = none)
    (hck : ¬(c.checksumType = 1 ∨ c.checksumType = 2)) :
    connectNext s =
      (some (Err.unsupportedChecksum c.checksumType),
       { s with datanodes := { s.datanodes with remaining := rest },
                sockCtr := s.sockCtr + 1,
                openSockets := s.sockCtr :: s.openSockets },
       0)
    ∧ readLoop (fuel + 1) s =
        readLoop fuel
          { s with datanodes := { remaining := rest,
                                  lastError := some
                                    (Err.unsupportedChecksum c.checksumType) },
                   sockCtr := s.sockCtr + 1,
                   openSockets := s.sockCtr :: s.openSockets } := by
  have hcn := connectNext_unsupported s c rest hr hd hw hp hck
  refine ⟨hcn, ?_⟩
  rw [readLoop_connect_fail fuel s c rest _ _ _ hs hr hcn]
  rfl

/-- Concrete instance for the amended C4: checksum type 0 is rejected
and the loop proceeds to the next candidate. -/
theorem unsupported_checksum_is_retried_witness :
    connectNext (freshReader
        [{ goodScript [] with checksumType := 0 }, goodScript [(5, none)]]) =
      (some (Err.unsupportedChecksum 0),
       { block := cexBlock,
         datanodes := { remaining := [goodScript [(5, none)]],
                        lastError := none },
         stream := none, conn := none, offset := 0, closed := false,
         openSockets := [0], sockCtr := 1 },
       0)
    ∧ readLoop 3 (freshReader
        [{ goodScript [] with checksumType := 0 }, goodScript [(5, none)]]) =
      readLoop 2
        { block := cexBlock,
          datanodes := { remaining := [goodScript [(5, none)]],
                         lastError := some (Err.unsupportedChecksum 0) },
          stream := none, conn := none, offset := 0, closed := false,
          openSockets := [0], sockCtr := 1 } := by
  exact unsupported_checksum_is_retried 2
    (freshReader
      [{ goodScript [] with checksumType := 0 }, goodScript [(5, none)]])
    { goodScript [] with checksumType := 0 } [goodScript [(5, none)]]
    rfl rfl rfl rfl rfl (by decide)

/-! Claim C5. -/

/-- C5: when the response's chunk-aligned start offset is strictly below
the session offset, exactly `offset - chunkOffset` bytes are discarded
from the new stream before it is installed and the session offset is
unchanged; if the discard hits end-of-stream, the error becomes
`io.ErrUnexpectedEOF`, the socket is closed (the open set is restored),
the stream is not installed, the failure is recorded and the failover
loop continues with the offset unchanged. -/
theorem connect_discard_spec (fuel : Nat) (s : BlockReader)
    (c : ConnectScript) (rest : List ConnectScript)
    (hs : s.stream = none)
    (hr : s.datanodes.remaining = c :: rest) (hd : c.dialErr = none)
    (hw : c.writeErr = none) (hp : c.respErr = none)
    (hck : c.checksumType = 1 ∨ c.checksumType = 2)
    (hlt : c.chunkOffset < s.offset) :
    (s.offset - c.chunkOffset ≤ c.discardAvailable →
      connectNext s =
        (none,
         { s with datanodes := { s.datanodes with remaining := rest },
                  sockCtr := s.sockCtr + 1,
                  openSockets := s.sockCtr :: s.openSockets,
                  stream := some c.streamReads,
                  conn := some s.sockCtr },
         s.offset - c.chunkOffset))
    ∧ (c.discardAvailable < s.offset - c.chunkOffset →
      connectNext s =
        (some Err.unexpectedEOF,
         { s with datanodes := { s.datanodes with remaining := rest },
                  sockCtr := s.sockCtr + 1 },
         c.discardAvailable)
      ∧ readLoop (fuel + 1) s =
          readLoop fuel
            { s with datanodes := { remaining := rest,
                                    lastError := some Err.unexpectedEOF },
                     sockCtr := s.sockCtr + 1 }) := by
  constructor
  · intro hav
    exact connectNext_success s c rest hr hd hw hp hck hav
  · intro hshort
    have hcn := connectNext_discard_eof s c rest hr hd hw hp hck hshort
    refine ⟨hcn, ?_⟩
    rw [readLoop_connect_fail fuel s c rest _ _ _ hs hr hcn]
    rfl

/-- Concrete instances for C5: a reader at offset 7 over a stream
starting at chunk offset 4 discards exactly 3 bytes; the same connection
with only 2 bytes available fails with `io.ErrUnexpectedEOF`, closes the
socket, and the loop continues. -/
theorem connect_discard_spec_witness :
    connectNext
      { block := cexBlock,
        datanodes := { remaining :=
                         [{ goodScript [(3, none)] with
                              chunkOffset := 4, discardAvailable := 3 }],
                       lastError := none },
        stream := none, conn := none, offset := 7, closed := false,
        openSockets := [], sockCtr := 0 } =
      (none,
       { block := cexBlock,
         datanodes := { remaining := [], lastError := none },
         stream := some [(3, none)], conn := some 0, offset := 7,
         closed := false, openSockets := [0], sockCtr := 1 },
       3)
    ∧ connectNext
      { block := cexBlock,
        datanodes := { remaining :=
                         [{ goodScript [(3, none)] with
                              chunkOffset := 4, discardAvailable := 2 }],
                       lastError := none },
        stream := none, conn := none, offset := 7, closed := false,
        openSockets := [], sockCtr := 0 } =
      (some Err.unexpectedEOF,
       { block := cexBlock,
         datanodes := { remaining := [], lastError := none },
         stream := none, conn := none, offset := 7,
         closed := false, openSockets := [], sockCtr := 1 },
       2)
    ∧ readLoop 4
      { block := cexBlock,
        datanodes := { remaining :=
                         [{ goodScript [(3, none)] with
                              chunkOffset := 4, discardAvailable := 2 }],
                       lastError := none },
        stream := none, conn := none, offset := 7, closed := false,
        openSockets := [], sockCtr := 0 } =
      readLoop 3
        { block := cexBlock,
          datanodes := { remaining := [],
                         lastError := some Err.unexpectedEOF },
          stream := none, conn := none, offset := 7,
          closed := false, openSockets := [], sockCtr := 1 } := by
  refine ⟨?_, ?_, ?_⟩
  · exact (connect_discard_spec 0 _
      { goodScript [(3, none)] with chunkOffset := 4, discardAvailable := 3 }
      [] rfl rfl rfl rfl rfl (Or.inl rfl) (by decide)).1 (by decide)
  · exact ((connect_discard_spec 0 _
      { goodScript [(3, none)] with chunkOffset := 4, discardAvailable := 2 }
      [] rfl rfl rfl rfl rfl (Or.inl rfl) (by decide)).2 (by decide)).1
  · exact ((connect_discard_spec 3 _
      { goodScript [(3, none)] with chunkOffset := 4, discardAvailable := 2 }
      [] rfl rfl rfl rfl rfl (Or.inl rfl) (by decide)).2 (by decide)).2

/-! Claim C9. -/

/-- C9 counterexample: the first candidate dials successfully but the
request write fails; the loop records the failure and moves on, yet
socket 0 — dialed for the failed attempt — is still in the open set when
`Read` returns from the second candidate.  The dialed socket is not
closed before the loop continues, refuting the claim. -/
theorem dialed_socket_leak_counterexample :
    Read 10 (freshReader
        [{ goodScript [] with writeErr := some (Err.ioErr 3) },
         goodScript [(5, none)]]) =
      some ((5, none),
        { block := cexBlock,
          datanodes := { remaining := [], lastError := some (Err.ioErr 3) },
          stream := some [], conn := some 1, offset := 5, closed := false,
          openSockets := [1, 0], sockCtr := 2 }) := by
  decide

/-- C9 amended: when the dial succeeds but sending the request or
parsing the response fails, the failure is recorded, no stream is
installed, and the failover loop continues to the next candidate — but
the newly dialed socket is left open rather than closed. -/
theorem attempt_failure_leaves_socket_open (fuel : Nat) (s : BlockReader)
    (c : ConnectScript) (rest : List ConnectScript) (e : Err)
    (hs : s.stream = none)
    (hr : s.datanodes.remaining = c :: rest) (hd : c.dialErr = none)
    (hwe : c.writeErr = some e ∨ (c.writeErr = none ∧ c.respErr = some e)) :
    connectNext s =
      (some e,
       { s with datanodes := { s.datanodes with remaining := rest },
                sockCtr := s.sockCtr + 1,
                openSockets := s.sockCtr :: s.openSockets },
       0)
    ∧ s.sockCtr ∈ s.sockCtr :: s.openSockets
    ∧ readLoop (fuel + 1) s =
        readLoop fuel
          { s with datanodes := { remaining := rest, lastError := some e },
                   sockCtr := s.sockCtr + 1,
                   openSockets := s.sockCtr :: s.openSockets } := by
  have hcn : connectNext s =
      (some e,
       { s with datanodes := { s.datanodes with remaining := rest },
                sockCtr := s.sockCtr + 1,
                openSockets := s.sockCtr :: s.openSockets },
       0) := by
    rcases hwe with hw | ⟨hw, hp⟩
    · exact connectNext_write_fail s c rest e hr hd hw
    · exact connectNext_resp_fail s c rest e hr hd hw hp
  refine ⟨hcn, List.mem_cons_self _ _, ?_⟩
  rw [readLoop_connect_fail fuel s c rest _ _ _ hs hr hcn]
  rfl

/-- Concrete instance for the amended C9: a failed request write leaves
socket 0 open while the loop moves to the next candidate. -/
theorem attempt_failure_leaves_socket_open_witness :
    connectNext (freshReader
        [{ goodScript [] with writeErr := some (Err.ioErr 3) },
         goodScript [(5, none)]]) =
      (some (Err.ioErr 3),
       { block := cexBlock,
         datanodes := { remaining := [goodScript [(5, none)]],
                        lastError := none },
         stream := none, conn := none, offset := 0, closed := false,
         openSockets := [0], sockCtr := 1 },
       0)
    ∧ (0 : Nat) ∈ [0]
    ∧ readLoop 3 (freshReader
        [{ goodScript [] with writeErr := some (Err.ioErr 3) },
         goodScript [(5, none)]]) =
      readLoop 2
        { block := cexBlock,
          datanodes := { remaining := [goodScript [(5, none)]],
                         lastError := some (Err.ioErr 3) },
          stream := none, conn := none, offset := 0, closed := false,
          openSockets := [0], sockCtr := 1 } := by
  exact attempt_failure_leaves_socket_open 2
    (freshReader
      [{ goodScript [] with writeErr := some (Err.ioErr 3) },
       goodScript [(5, none)]])
    { goodScript [] with writeErr := some (Err.ioErr 3) }
    [goodScript [(5, none)]] (Err.ioErr 3)
    rfl rfl rfl (Or.inl rfl)

/-! Claim C7. -/

/-- C7: the request written to a datanode is exactly the byte `0x00`,
the protocol-version constant, the op code `0x51`, the varint-encoded
length of the serialized read-request message, and the serialized
message, in that order; and the request message's `Len` field equals
block length minus the current session offset while its `Offset` field
equals the session offset.  `ser` is the out-of-scope serialization
codec. -/
theorem request_wire_layout (ser : OpReadBlock → List Nat) (s : BlockReader) :
    writeBlockReadRequest ser s =
      0x00 :: dataTransferVersion :: readBlockOp ::
        (uvarintEncode (ser (newBlockReadOp s.block s.offset
            (s.block.b.numBytes - s.offset))).length
         ++ ser (newBlockReadOp s.block s.offset
            (s.block.b.numBytes - s.offset)))
    ∧ readBlockOp = 0x51
    ∧ (newBlockReadOp s.block s.offset (s.block.b.numBytes - s.offset)).offset
        = s.offset
    ∧ (newBlockReadOp s.block s.offset (s.block.b.numBytes - s.offset)).len
        = s.block.b.numBytes - s.offset := by
  refine ⟨?_, rfl, rfl, rfl⟩
  simp [writeBlockReadRequest, makeDelimitedMsg]

/-! Claim C6. -/

/-- C6: the response header is parsed from a fixed 5-byte scratch
buffer; a varint from which zero bytes are consumed yields
`io.ErrUnexpectedEOF`, and otherwise the scratch bytes beyond the varint
become the leading bytes of the message — the message equals the first
`L` bytes of (scratch past the varint) followed by the stream, with only
the missing tail re-read from the stream. -/
theorem response_varint_scratch_reuse (inp : List Nat) (L : Nat) (k : Int)
    (hlen : 5 ≤ inp.length) (hu : uvarint (inp.take 5) = (L, k)) :
    (k = 0 → readBlockReadResponse inp = Except.error Err.unexpectedEOF)
    ∧ (1 ≤ k → L - (5 - k.toNat) ≤ (inp.drop 5).length →
        readBlockReadResponse inp =
          Except.ok
            (((inp.take 5).drop k.toNat ++ inp.drop 5).take L,
             (inp.drop 5).drop (L - (5 - k.toNat)))) := by
  have htake5 : (inp.take 5).length = 5 := by
    rw [List.length_take]; omega
  constructor
  · intro hk
    simp [readBlockReadResponse, readFull, maxVarintLen32, hlen, hu, hk]
  · intro hk hrest
    have hknlt : ¬ k < 1 := by omega
    have h1 : readFull inp maxVarintLen32 =
        Except.ok (inp.take 5, inp.drop 5) := by
      simp [readFull, maxVarintLen32, hlen]
    have hdl : ((inp.take 5).drop k.toNat).length = 5 - k.toNat := by
      rw [List.length_drop, htake5]
    have hfsl : (((inp.take 5).drop k.toNat).take L).length =
        L ⊓ (5 - k.toNat) := by
      rw [List.length_take, hdl]
    have hamt : L - L ⊓ (5 - k.toNat) = L - (5 - k.toNat) := by omega
    have h2 : readFull (inp.drop 5) (L - (5 - k.toNat)) =
        Except.ok ((inp.drop 5).take (L - (5 - k.toNat)),
                   (inp.drop 5).drop (L - (5 - k.toNat))) := by
      simp only [readFull]
      rw [if_pos hrest]
    simp only [readBlockReadResponse, h1, hu, if_neg hknlt, hfsl, hamt, h2]
    rw [List.take_append_eq_append_take, hdl]

/-- Concrete instances for C6: a 1-byte varint of value 2 followed by
payload reuses the scratch bytes as the message, and a 5-byte scratch
full of continuation bits fails with `io.ErrUnexpectedEOF`. -/
theorem response_varint_scratch_reuse_witness :
    readBlockReadResponse [2, 9, 9, 0, 0, 7, 8] = Except.ok ([9, 9], [7, 8])
    ∧ readBlockReadResponse [129, 130, 131, 132, 133] =
        Except.error Err.unexpectedEOF := by
  constructor
  · exact (response_varint_scratch_reuse [2, 9, 9, 0, 0, 7, 8] 2 1
      (by decide) (by decide)).2 (by decide) (by decide)
  · exact (response_varint_scratch_reuse [129, 130, 131, 132, 133] 0 0
      (by decide) (by decide)).1 rfl

/-! Claim C10. -/

/-- C10: the parser unconditionally reads exactly 5 scratch bytes before
decoding: an input shorter than 5 bytes fails with an I/O error
(`io.EOF` when empty, `io.ErrUnexpectedEOF` otherwise) no matter how
well-formed the varint and message are, and when the whole message fits
inside the scratch the scratch bytes past the message are silently
dropped — the remainder handed to the following data stream is the
input past the 5 scratch bytes. -/
theorem response_fixed_scratch_read (inp : List Nat) :
    (inp.length < 5 →
      readBlockReadResponse inp =
        Except.error (if inp.length = 0 then Err.eof else Err.unexpectedEOF))
    ∧ (5 ≤ inp.length → ∀ (L : Nat) (k : Int), uvarint (inp.take 5) = (L, k) →
        1 ≤ k → L ≤ 5 - k.toNat →
        readBlockReadResponse inp =
          Except.ok ((((inp.take 5).drop k.toNat).take L), inp.drop 5)) := by
  constructor
  · intro hshort
    have hn : ¬ 5 ≤ inp.length := by omega
    by_cases hz : inp.length = 0
    · simp [readBlockReadResponse, readFull, maxVarintLen32, hn, hz]
    · simp [readBlockReadResponse, readFull, maxVarintLen32, hn, hz]
  · intro hlen L k hu hk hsmall
    have h := (response_varint_scratch_reuse inp L k hlen hu).2 hk (by omega)
    have h0 : L - (5 - k.toNat) = 0 := by omega
    have hdl : ((inp.take 5).drop k.toNat).length = 5 - k.toNat := by
      rw [List.length_drop, List.length_take]; omega
    rw [h, h0]
    simp [List.take_append_eq_append_take, hdl, h0]

/-- Concrete instances for C10: inputs of 3 and 0 total bytes fail even
though `[1, 2, 3]` starts with a perfectly well-formed varint-plus-
message; and a message ending inside the scratch drops the unused
scratch byte (value 0 at index 4) while the remainder `[42]` is
preserved. -/
theorem response_fixed_scratch_read_witness :
    readBlockReadResponse [1, 2, 3] = Except.error Err.unexpectedEOF
    ∧ readBlockReadResponse ([] : List Nat) = Except.error Err.eof
    ∧ readBlockReadResponse [3, 9, 9, 9, 0, 42] =
        Except.ok ([9, 9, 9], [42]) := by
  refine ⟨?_, ?_, ?_⟩
  · exact (response_fixed_scratch_read [1, 2, 3]).1 (by decide)
  · exact (response_fixed_scratch_read ([] : List Nat)).1 (by decide)
  · exact (response_fixed_scratch_read [3, 9, 9, 9, 0, 42]).2 (by decide) 3 1
      (by decide) (by decide) (by decide)

end rpc
